import Mathlib

/-!
Verification of the patent-pipeline orchestrator in `lib/langgraph-config.js`:
the pipeline state threaded through the five stage functions, the error
formatting and classification helpers, the retry executor (`ErrorRecovery`),
the bounded TTL cache (`AgentCache`), and the three execution policies of
`executePatentWorkflow` / `executeParallelWorkflow` / `executeRobustWorkflow`.

The external collaborators (the LLM chat completion, JSON parsing of its
output, the per-stage cache lookup inside `searchGenerationAgent`, and
wall-clock timing) are modelled as explicit parameters: each stage invocation
receives a `StageOutcome` saying whether its try-block produced a value or
threw a JavaScript error, and time is an explicit `Nat` of milliseconds.
-/

/-- Substring test on character lists: true when `pat` occurs contiguously in
`s` (the empty pattern occurs everywhere), mirroring JavaScript
`String.prototype.includes`. Written by structural recursion so that the
kernel can evaluate it. -/
def containsSub : List Char → List Char → Bool
  | s, pat =>
    if leadsWith pat s then true else
      match s with
      | [] => false
      | _ :: t => containsSub t pat
where
  /-- Does the first list lead (start) the second? -/
  leadsWith : List Char → List Char → Bool
  | [], _ => true
  | _ :: _, [] => false
  | p :: ps, c :: cs => p == c && leadsWith ps cs

/-- JavaScript `s.includes(pat)` for strings. -/
def strContains (s pat : String) : Bool :=
  containsSub s.data pat.data

/-- A thrown JavaScript error as the orchestrator inspects it: its `message`
(the code reads `error.message || String(error)`) and the status code found by
the chain `error.status || error.statusCode || error.response?.status`,
collapsed here into one optional number. -/
structure JsError where
  message : String
  status : Option Nat := none
deriving Repr, DecidableEq

/-- The pipeline state threaded through all stages (`stateType` plus the
fields the stage functions read and write). Prior-art items, claims and
diagram suggestions are opaque JSON values downstream of this core; they are
modelled as strings. The `parallelResults` record stored by the parallel
merge is not modelled: no later stage or caller reads it. -/
structure PipelineState where
  abstract : String
  priorArt : List String
  noveltyAnalysis : String
  patentDraft : String
  diagrams : List String
  claims : List String
  errors : List String
  currentStep : String
  cacheKey : String := ""
  useAlternativePrompt : Bool := false
  retryCount : Nat := 0
deriving Repr, DecidableEq

/-- `formatErrorMessage(error, agentName)`: the formatted error string
recorded into `state.errors`, with the special quota / 401 / 403 wordings. -/
def formatErrorMessage (error : JsError) (agentName : String) : String :=
  let errorMessage := error.message
  if error.status == some 429 || strContains errorMessage "quota" || strContains errorMessage "429" then
    agentName ++ " Error: API quota exceeded. Please check your OpenAI billing and plan at https://platform.openai.com/account/billing. You may need to add payment method or wait for quota reset."
  else if error.status == some 401 || strContains errorMessage "401" then
    agentName ++ " Error: Invalid API key. Please check your OPENAI_API_KEY in .env.local"
  else if error.status == some 403 || strContains errorMessage "403" then
    agentName ++ " Error: " ++ errorMessage ++ ". Please check your OpenAI account access and billing settings."
  else
    agentName ++ " Error: " ++ errorMessage

/-- The outcome of one stage invocation's try-block, as determined by the
external collaborators: `ok v` when the chat completion and JSON parsing
produced the stage's value `v` (or, for search, the per-stage cache hit
supplied it), `fail e` when anything inside the try-block threw `e`. -/
inductive StageOutcome (α : Type) where
  | ok (val : α)
  | fail (e : JsError)
deriving Repr, DecidableEq

/-- `AgentCache.generateKey(agentName, input)`. The source fingerprints the
input as the first 50 characters of base64 of its JSON encoding (Node
`Buffer`, external to this core); the fingerprint is modelled as the input
itself, keeping the `scope ++ "_"` shape that separates cache scopes. -/
def generateKey (agentName input : String) : String :=
  agentName ++ "_" ++ input

/-- `searchGenerationAgent`: on a successful try-block, record the prior art,
mark `search_completed` and store the cache key; on any thrown error, append
the formatted message to `errors` and mark `search_failed`. It always returns
normally (the catch swallows every throw). -/
def searchGenerationAgent (outcome : StageOutcome (List String)) (state : PipelineState) : PipelineState :=
  match outcome with
  | .ok priorArt =>
      { state with
        priorArt := priorArt
        currentStep := "search_completed"
        cacheKey := generateKey "search" state.abstract }
  | .fail e =>
      { state with
        errors := state.errors ++ [formatErrorMessage e "Search Agent"]
        currentStep := "search_failed" }

/-- `researchGenerationAgent`: novelty analysis or `research_failed`. -/
def researchGenerationAgent (outcome : StageOutcome String) (state : PipelineState) : PipelineState :=
  match outcome with
  | .ok analysis =>
      { state with
        noveltyAnalysis := analysis
        currentStep := "research_completed" }
  | .fail e =>
      { state with
        errors := state.errors ++ [formatErrorMessage e "Research Agent"]
        currentStep := "research_failed" }

/-- `claimsGenerationAgent`: generated claims or `claims_failed`. -/
def claimsGenerationAgent (outcome : StageOutcome (List String)) (state : PipelineState) : PipelineState :=
  match outcome with
  | .ok claims =>
      { state with
        claims := claims
        currentStep := "claims_completed" }
  | .fail e =>
      { state with
        errors := state.errors ++ [formatErrorMessage e "Claims Agent"]
        currentStep := "claims_failed" }

/-- `documentGenerationAgent`: patent draft or `document_failed`. -/
def documentGenerationAgent (outcome : StageOutcome String) (state : PipelineState) : PipelineState :=
  match outcome with
  | .ok draft =>
      { state with
        patentDraft := draft
        currentStep := "document_completed" }
  | .fail e =>
      { state with
        errors := state.errors ++ [formatErrorMessage e "Document Agent"]
        currentStep := "document_failed" }

/-- `diagramGenerationAgent`: diagram suggestions or `diagram_failed`. -/
def diagramGenerationAgent (outcome : StageOutcome (List String)) (state : PipelineState) : PipelineState :=
  match outcome with
  | .ok diagrams =>
      { state with
        diagrams := diagrams
        currentStep := "diagram_completed" }
  | .fail e =>
      { state with
        errors := state.errors ++ [formatErrorMessage e "Diagram Agent"]
        currentStep := "diagram_failed" }

/-- `ErrorRecovery.maxRetries`. -/
def maxRetries : Nat := 3

/-- `ErrorRecovery.backoffMultiplier`. -/
def backoffMultiplier : Nat := 2

/-- The non-retry condition of `executeWithRetry`: the comment in the source
says quota/billing (429) and auth (401) errors are not retried, and the code
tests `statusCode === 429 || statusCode === 401 ||
errorMessage.includes('quota')`. -/
def nonRetryable (e : JsError) : Bool :=
  e.status == some 429 || e.status == some 401 || strContains e.message "quota"

deriving instance DecidableEq for Except

/-- What one call of `executeWithRetry` did: its result (`Except.error` for a
propagated throw), the `(attempt index, state)` of every invocation of the
stage function in order, and the backoff sleeps performed, in milliseconds. -/
structure RetryTrace where
  result : Except JsError PipelineState
  calls : List (Nat × PipelineState)
  delays : List Nat
deriving Repr, DecidableEq

/-- The loop body of `executeWithRetry`, with `fuel` the number of attempts
still allowed (`maxRetries - attempt + 1`). The stage function is indexed by
the attempt number so that a distinct external outcome can be modelled per
invocation; `fuel = 0` is never reached from `executeWithRetry`. -/
def retryGo (agentFunction : Nat → PipelineState → Except JsError PipelineState) :
    Nat → Nat → PipelineState → RetryTrace
  | 0, _, _ => ⟨.error ⟨"unreachable", none⟩, [], []⟩
  | fuel + 1, attempt, state =>
    match agentFunction attempt state with
    | .ok s => ⟨.ok s, [(attempt, state)], []⟩
    | .error e =>
      if nonRetryable e then
        ⟨.error e, [(attempt, state)], []⟩
      else if fuel = 0 then
        ⟨.error e, [(attempt, state)], []⟩
      else
        let delay := backoffMultiplier ^ attempt * 1000
        let state' := if attempt = 2 then { state with useAlternativePrompt := true } else state
        let t := retryGo agentFunction fuel (attempt + 1) state'
        ⟨t.result, (attempt, state) :: t.calls, delay :: t.delays⟩

/-- `ErrorRecovery.executeWithRetry(agentFunction, state, agentName)`:
attempts run from 1 to `maxRetries`; a non-retryable error is re-thrown at
once; otherwise the loop sleeps `backoffMultiplier ^ attempt * 1000` ms,
switches `useAlternativePrompt` on after the failure of attempt 2, and
finally re-throws the last error. -/
def executeWithRetry (agentFunction : Nat → PipelineState → Except JsError PipelineState)
    (state : PipelineState) : RetryTrace :=
  retryGo agentFunction maxRetries 1 state

/-- A real stage function lifted to the shape `executeWithRetry` consumes:
the five agents never throw, so every invocation returns `Except.ok`. -/
def liftStage {α : Type} (agent : StageOutcome α → PipelineState → PipelineState)
    (outcome : StageOutcome α) : Nat → PipelineState → Except JsError PipelineState :=
  fun _ s => .ok (agent outcome s)

/-- `AgentCache.maxSize`. -/
def cacheMaxSize : Nat := 1000

/-- `AgentCache.ttl`: 24 hours in milliseconds. -/
def cacheTTL : Nat := 24 * 60 * 60 * 1000

/-- One stored cache entry: the cached datum and its insertion time. -/
structure CacheEntry (α : Type) where
  data : α
  timestamp : Nat
deriving Repr, DecidableEq

/-- A JavaScript `Map` as an insertion-ordered association list. -/
abbrev JsMap (κ α : Type) : Type := List (κ × α)

/-- `Map.prototype.get`. -/
def mapGet {κ α : Type} [DecidableEq κ] (m : JsMap κ α) (k : κ) : Option α :=
  (m.find? (fun p => p.1 = k)).map (fun p => p.2)

/-- `Map.prototype.delete`. -/
def mapDelete {κ α : Type} [DecidableEq κ] (m : JsMap κ α) (k : κ) : JsMap κ α :=
  m.filter (fun p => ¬ p.1 = k)

/-- `Map.prototype.set`: update in place (keeping insertion order) when the
key is present — a `Map` holds each key at most once, so replacing the first
occurrence is the JavaScript behavior — append otherwise. -/
def mapSet {κ α : Type} [DecidableEq κ] : JsMap κ α → κ → α → JsMap κ α
  | [], k, v => [(k, v)]
  | p :: t, k, v => if p.1 = k then (k, v) :: t else p :: mapSet t k v

/-- `AgentCache`: a bounded, time-expiring store over a JavaScript `Map`.
The key type is generic (the orchestrator instantiates it with the strings
`generateKey` produces). -/
structure AgentCache (κ α : Type) where
  cache : JsMap κ (CacheEntry α) := []
deriving Repr, DecidableEq

/-- `AgentCache.get(key)` at current time `now`: absent keys and entries
older than the TTL give `null`, and an expired entry is deleted on read
(lazy eviction), so the possibly-updated store is returned too. -/
def AgentCache.get {κ α : Type} [DecidableEq κ] (c : AgentCache κ α) (now : Nat) (key : κ) :
    Option α × AgentCache κ α :=
  match mapGet c.cache key with
  | none => (none, c)
  | some item =>
    if now - item.timestamp > cacheTTL then
      (none, ⟨mapDelete c.cache key⟩)
    else
      (some item.data, c)

/-- `AgentCache.set(key, data)` at current time `now`: when the store is at
capacity, delete the first (oldest-inserted) key, then insert the entry with
the current timestamp. -/
def AgentCache.set {κ α : Type} [DecidableEq κ] (c : AgentCache κ α) (now : Nat) (key : κ)
    (data : α) : AgentCache κ α :=
  let c' : AgentCache κ α :=
    if cacheMaxSize ≤ c.cache.length then
      match c.cache.head? with
      | some first => ⟨mapDelete c.cache first.1⟩
      | none => c
    else c
  ⟨mapSet c'.cache key ⟨data, now⟩⟩

/-- Inserting a list of key/value pairs in order via `AgentCache.set`. -/
def AgentCache.setAll {κ α : Type} [DecidableEq κ] (c : AgentCache κ α) (now : Nat)
    (kvs : List (κ × α)) : AgentCache κ α :=
  kvs.foldl (fun acc kv => acc.set now kv.1 kv.2) c

/-- The external behavior of one whole pipeline run: the try-block outcome
each of the five stage functions would see when invoked. -/
structure StageOutcomes where
  search : StageOutcome (List String)
  research : StageOutcome String
  claims : StageOutcome (List String)
  document : StageOutcome String
  diagram : StageOutcome (List String)
deriving Repr, DecidableEq

/-- The initial pipeline state each workflow builds from the abstract. -/
def initialState (abstract : String) : PipelineState :=
  { abstract := abstract
    priorArt := []
    noveltyAnalysis := ""
    patentDraft := ""
    diagrams := []
    claims := []
    errors := []
    currentStep := "started" }

/-- The `hasQuotaError` helper of `executePatentWorkflow`'s default branch:
does any recorded error mention quota, 429 or "exceeded"? -/
def hasQuotaError (state : PipelineState) : Bool :=
  state.errors.any (fun err =>
    strContains err "quota" || strContains err "429" || strContains err "exceeded")

/-- The snapshot `monitor.getMetrics()` returns. Its numbers come from
wall-clock timing, so a run's end-of-run snapshot is an explicit parameter of
the workflow embeddings; the per-agent breakdown and the floating-point
running average are not modelled (no verified claim reads them). -/
structure AggregateMetrics where
  totalExecutionTime : Nat
  successfulExecutions : Nat
  failedExecutions : Nat
deriving Repr, DecidableEq

/-- A result object returned by the workflow entry points. The JavaScript
objects carry different subsets of fields, so each optional field is an
`Option`; `metrics := none` models a result object with no `metrics` key. -/
structure WorkflowResult where
  success : Bool
  data : Option PipelineState
  error : Option String
  message : String
  metrics : Option AggregateMetrics
deriving Repr, DecidableEq

/-- The quota-stop result the default branch of `executePatentWorkflow`
returns directly (note: no `metrics` key). -/
def quotaStopResult (state : PipelineState) : WorkflowResult :=
  { success := false
    data := some state
    error := some "API quota exceeded. Please check your OpenAI billing."
    message := "Workflow stopped due to quota error"
    metrics := none }

/-- How the default (sequential) branch of `executePatentWorkflow` ended:
`early r invoked` when a `hasQuotaError` check returned from the function
directly (bypassing the final metrics attachment), `completed s invoked` when
all five stages ran and the branch fell through to the success result. In
both cases `invoked` lists the stage functions that were invoked, in order. -/
inductive StandardOutcome where
  | early (r : WorkflowResult) (invoked : List String)
  | completed (finalState : PipelineState) (invoked : List String)
deriving Repr, DecidableEq

/-- The stages a `StandardOutcome` invoked. -/
def StandardOutcome.invoked : StandardOutcome → List String
  | .early _ inv => inv
  | .completed _ inv => inv

/-- Is the outcome a direct quota-stop return? -/
def StandardOutcome.isEarly : StandardOutcome → Bool
  | .early _ _ => true
  | .completed _ _ => false

/-- The default branch of `executePatentWorkflow` (direct sequential agent
execution, lines 1036-1179): run each agent in order, and after each of the
first four inspect `hasQuotaError` and return a failure result directly when
it fires; otherwise fall through to the success result. The 1-second pacing
delays between stages have no observable effect in this model. -/
def executeStandardWorkflow (env : StageOutcomes) (abstract : String) : StandardOutcome :=
  let state := initialState abstract
  let searchState := searchGenerationAgent env.search state
  if hasQuotaError searchState then
    .early (quotaStopResult searchState) ["search"]
  else
    let researchState := researchGenerationAgent env.research searchState
    if hasQuotaError researchState then
      .early (quotaStopResult researchState) ["search", "research"]
    else
      let claimsState := claimsGenerationAgent env.claims researchState
      if hasQuotaError claimsState then
        .early (quotaStopResult claimsState) ["search", "research", "claims"]
      else
        let documentState := documentGenerationAgent env.document claimsState
        if hasQuotaError documentState then
          .early (quotaStopResult documentState) ["search", "research", "claims", "document"]
        else
          let finalState := diagramGenerationAgent env.diagram documentState
          .completed finalState ["search", "research", "claims", "document", "diagram"]

/-- The merged state `executeParallelWorkflow` builds after the concurrent
`search` and `research` runs: a spread of the **initial** state taking only
`priorArt` from search's result and `noveltyAnalysis` from research's result
(both stage functions ran on the initial state). -/
def parallelMergedState (env : StageOutcomes) (abstract : String) : PipelineState :=
  let init := initialState abstract
  let searchResult := searchGenerationAgent env.search init
  let researchResult := researchGenerationAgent env.research init
  { init with
    priorArt := searchResult.priorArt
    noveltyAnalysis := researchResult.noveltyAnalysis }

/-- `executeParallelWorkflow(abstract)`: search and research concurrently on
the initial state, merge, then claims → document → diagram sequentially on
the merged state. The stage functions never throw, so the catch branch of the
source is unreachable and the returned result is always the success shape
(which carries `monitor.getMetrics()`). -/
def executeParallelWorkflow (env : StageOutcomes) (abstract : String)
    (metricsAtEnd : AggregateMetrics) : WorkflowResult × List String :=
  let merged := parallelMergedState env abstract
  let s2 := claimsGenerationAgent env.claims merged
  let s3 := documentGenerationAgent env.document s2
  let s4 := diagramGenerationAgent env.diagram s3
  ({ success := true
     data := some s4
     error := none
     message := "Enhanced parallel workflow completed successfully"
     metrics := some metricsAtEnd },
   ["search", "research", "claims", "document", "diagram"])

/-- `executeRobustWorkflow(abstract)`: the five stages strictly in order,
each wrapped in `errorRecovery.executeWithRetry`; a propagated error is
caught and returned as a failure result (with metrics). -/
def executeRobustWorkflow (env : StageOutcomes) (abstract : String)
    (metricsAtEnd : AggregateMetrics) : WorkflowResult × List String :=
  let s0 := initialState abstract
  let failed : JsError → List String → WorkflowResult × List String := fun e invoked =>
    ({ success := false
       data := none
       error := some e.message
       message := "Robust workflow failed"
       metrics := some metricsAtEnd }, invoked)
  match (executeWithRetry (liftStage searchGenerationAgent env.search) s0).result with
  | .error e => failed e ["search"]
  | .ok s1 =>
  match (executeWithRetry (liftStage researchGenerationAgent env.research) s1).result with
  | .error e => failed e ["search", "research"]
  | .ok s2 =>
  match (executeWithRetry (liftStage claimsGenerationAgent env.claims) s2).result with
  | .error e => failed e ["search", "research", "claims"]
  | .ok s3 =>
  match (executeWithRetry (liftStage documentGenerationAgent env.document) s3).result with
  | .error e => failed e ["search", "research", "claims", "document"]
  | .ok s4 =>
  match (executeWithRetry (liftStage diagramGenerationAgent env.diagram) s4).result with
  | .error e => failed e ["search", "research", "claims", "document", "diagram"]
  | .ok s5 =>
    ({ success := true
       data := some s5
       error := none
       message := "Robust workflow completed successfully"
       metrics := some metricsAtEnd },
     ["search", "research", "claims", "document", "diagram"])

/-- `executePatentWorkflow(abstract, mode)`: dispatch on the mode string.
`parallel` and `robust` run their workflows and have `result.metrics`
(re)assigned; `cached` first probes the whole-workflow cache and on a hit
returns the cached state immediately **without** a metrics field, on a miss
falls through to the default branch and stores the final state; every other
mode string (including `standard`) runs the default branch. A quota-stop
`early` outcome is returned directly, bypassing the metrics attachment.
Returns the result, the stages invoked, and the updated workflow cache. -/
def executePatentWorkflow (env : StageOutcomes) (abstract mode : String)
    (wfCache : AgentCache String PipelineState) (now : Nat)
    (metricsAtEnd : AggregateMetrics) :
    WorkflowResult × List String × AgentCache String PipelineState :=
  if mode = "parallel" then
    ({ (executeParallelWorkflow env abstract metricsAtEnd).1 with metrics := some metricsAtEnd },
     (executeParallelWorkflow env abstract metricsAtEnd).2, wfCache)
  else if mode = "robust" then
    ({ (executeRobustWorkflow env abstract metricsAtEnd).1 with metrics := some metricsAtEnd },
     (executeRobustWorkflow env abstract metricsAtEnd).2, wfCache)
  else
    let workflowCacheKey := generateKey "workflow" abstract
    let probe := if mode = "cached" then wfCache.get now workflowCacheKey else (none, wfCache)
    match probe.1 with
    | some cachedWorkflow =>
      ({ success := true
         data := some cachedWorkflow
         error := none
         message := "Cached workflow result retrieved"
         metrics := none }, [], probe.2)
    | none =>
      match executeStandardWorkflow env abstract with
      | .early r invoked => (r, invoked, probe.2)
      | .completed finalState invoked =>
        let c'' := if mode = "cached" then probe.2.set now workflowCacheKey finalState else probe.2
        ({ success := true
           data := some finalState
           error := none
           message := "Patent creation workflow completed successfully using direct agent execution"
           metrics := some metricsAtEnd }, invoked, c'')

/-- A run in which every stage's external call succeeds. -/
def envOK : StageOutcomes :=
  ⟨.ok ["priorArt1"], .ok "analysis", .ok ["claim1"], .ok "draft", .ok ["diagram1"]⟩

/-- A run whose search stage throws an HTTP-401 error (its formatted message
carries no quota / 429 / "exceeded" marker). -/
def env401 : StageOutcomes :=
  { envOK with search := .fail ⟨"Unauthorized", some 401⟩ }

/-- A run whose search stage throws a quota (429) error. -/
def envQuota : StageOutcomes :=
  { envOK with search := .fail ⟨"quota", some 429⟩ }

/-- A run whose search stage throws a plain transient error. -/
def envBoomSearch : StageOutcomes :=
  { envOK with search := .fail ⟨"boom", none⟩ }

/-- A stage function that throws an HTTP-403 error on every invocation. -/
def fail403 : Nat → PipelineState → Except JsError PipelineState :=
  fun _ _ => .error ⟨"Forbidden", some 403⟩

/-- A stage function that throws a plain retryable error on every
invocation. -/
def failBoom : Nat → PipelineState → Except JsError PipelineState :=
  fun _ _ => .error ⟨"boom", none⟩

/-- A stage function that throws a quota error on every invocation. -/
def failQuota : Nat → PipelineState → Except JsError PipelineState :=
  fun _ _ => .error ⟨"insufficient quota", some 429⟩

/-- An arbitrary fixed metrics snapshot. -/
def metrics0 : AggregateMetrics :=
  ⟨0, 0, 0⟩

/-- A workflow cache that already holds a whole-pipeline entry for the
abstract `"A"` (its key under the modelled fingerprint), inserted at time 0. -/
def hitCache : AgentCache String PipelineState :=
  ⟨[("workflow_A", ⟨initialState "A", 0⟩)]⟩

/-! ## Helper lemmas -/

/-- A fresh key is appended by `mapSet`. -/
lemma mapSet_append_of_fresh {κ α : Type} [DecidableEq κ] (m : JsMap κ α) (k : κ) (v : α)
    (h : ∀ p ∈ m, p.1 ≠ k) :
    mapSet m k v = m ++ [(k, v)] := by
  induction m with
  | nil => simp [mapSet]
  | cons p t ih =>
    have hp : p.1 ≠ k := h p (List.mem_cons_self p t)
    simp only [mapSet, hp, if_false]
    rw [ih (fun q hq => h q (List.mem_cons_of_mem p hq))]
    simp

/-- Reading back a key just written by `mapSet`. -/
lemma mapGet_mapSet_self {κ α : Type} [DecidableEq κ] (m : JsMap κ α) (k : κ) (v : α) :
    mapGet (mapSet m k v) k = some v := by
  induction m with
  | nil => simp [mapSet, mapGet]
  | cons p t ih =>
    by_cases hp : p.1 = k
    · simp [mapSet, hp, mapGet]
    · simp only [mapSet, hp, if_false]
      simpa [mapGet, hp] using ih

/-- A deleted key is gone. -/
lemma mapGet_mapDelete_self {κ α : Type} [DecidableEq κ] (m : JsMap κ α) (k : κ) :
    mapGet (mapDelete m k) k = none := by
  induction m with
  | nil => simp [mapDelete, mapGet]
  | cons p t ih =>
    by_cases hp : p.1 = k
    · simp [mapDelete, hp, mapGet] at ih ⊢
    · simp [mapDelete, hp, mapGet] at ih ⊢

/-- Deleting the head entry's key removes exactly the head when no later
entry shares that key. -/
lemma mapDelete_cons_head {κ α : Type} [DecidableEq κ] (p : κ × α) (t : JsMap κ α)
    (h : ∀ q ∈ t, q.1 ≠ p.1) :
    mapDelete (p :: t) p.1 = t := by
  simp only [mapDelete, List.filter_cons]
  rw [if_neg (by simp)]
  exact List.filter_eq_self.mpr (fun q hq => by simpa using h q hq)

/-- After `AgentCache.set`, the key maps to the just-written entry. -/
lemma cache_set_cache {κ α : Type} [DecidableEq κ] (c : AgentCache κ α) (now : Nat) (k : κ)
    (v : α) :
    mapGet (c.set now k v).cache k = some ⟨v, now⟩ := by
  unfold AgentCache.set
  split <;> [skip; exact mapGet_mapSet_self _ _ _]
  split <;> exact mapGet_mapSet_self _ _ _

/-- A `get` that returns a value changes nothing in the store. -/
lemma get_some_frame {κ α : Type} [DecidableEq κ] (c : AgentCache κ α) (t : Nat) (k : κ)
    (h : ((c.get t k).1).isSome = true) : (c.get t k).2 = c := by
  unfold AgentCache.get at h ⊢
  rcases hm : mapGet c.cache k with _ | item
  · rfl
  · rw [hm] at h
    by_cases hexp : t - item.timestamp > cacheTTL
    · simp [hexp] at h
    · simp [hexp]

/-- Below capacity, inserting pairwise-distinct fresh keys appends their
entries in insertion order. -/
lemma setAll_below_capacity {κ α : Type} [DecidableEq κ] (now : Nat) (kvs : List (κ × α)) :
    ∀ (c : AgentCache κ α),
    (kvs.map Prod.fst).Nodup →
    (∀ q ∈ kvs, ∀ p ∈ c.cache, p.1 ≠ q.1) →
    c.cache.length + kvs.length ≤ cacheMaxSize →
    (c.setAll now kvs).cache = c.cache ++ kvs.map (fun kv => (kv.1, ⟨kv.2, now⟩)) := by
  induction kvs with
  | nil => intro c _ _ _; simp [AgentCache.setAll]
  | cons q rest ih =>
    intro c hnd hfresh hlen
    have hstep : (c.set now q.1 q.2).cache = c.cache ++ [(q.1, (⟨q.2, now⟩ : CacheEntry α))] := by
      unfold AgentCache.set
      have hlt : ¬ (cacheMaxSize ≤ c.cache.length) := by
        simp only [List.length_cons] at hlen; omega
      simp only [hlt, if_false]
      exact mapSet_append_of_fresh _ _ _ (fun p hp => hfresh q (List.mem_cons_self q rest) p hp)
    have hset : c.setAll now (q :: rest) = (c.set now q.1 q.2).setAll now rest := by
      simp [AgentCache.setAll]
    rw [hset, ih (c.set now q.1 q.2) (by simpa using hnd.of_cons) ?fresh ?len]
    · rw [hstep]; simp
    case fresh =>
      intro q' hq' p hp
      rw [hstep] at hp
      rcases List.mem_append.mp hp with hp | hp
      · exact hfresh q' (List.mem_cons_of_mem q hq') p hp
      · have : p = (q.1, (⟨q.2, now⟩ : CacheEntry α)) := by simpa using hp
        subst this
        have := (List.nodup_cons.mp hnd).1
        simp only [List.mem_map] at this
        intro hcon
        exact this ⟨q', hq', hcon.symm⟩
    case len =>
      rw [hstep]
      simp at hlen ⊢
      omega

/-- Inserting `cacheMaxSize + 1` distinct keys into an empty cache evicts
exactly the first-inserted key. -/
lemma setAll_evicts_first {κ α : Type} [DecidableEq κ] (keys : List κ) (v : α) (now : Nat)
    (hnd : keys.Nodup) (hlen : keys.length = cacheMaxSize + 1) :
    (((⟨[]⟩ : AgentCache κ α).setAll now (keys.map (fun k => (k, v)))).cache.map Prod.fst
        = keys.tail) ∧
    ((⟨[]⟩ : AgentCache κ α).setAll now (keys.map (fun k => (k, v)))).cache.length
        = cacheMaxSize := by
  have hne : keys ≠ [] := by intro h; rw [h] at hlen; simp [cacheMaxSize] at hlen
  obtain ⟨ys, z, hk⟩ : ∃ ys z, keys = ys ++ [z] :=
    ⟨keys.dropLast, keys.getLast hne, (List.dropLast_append_getLast hne).symm⟩
  subst hk
  have hysl : ys.length = cacheMaxSize := by
    simp at hlen; omega
  have hndys : ys.Nodup := (List.nodup_append.mp hnd).1
  have hzys : z ∉ ys := by
    have hd := (List.nodup_append.mp hnd).2.2
    intro hz
    exact hd hz (List.mem_singleton_self z)
  have h1 : ((⟨[]⟩ : AgentCache κ α).setAll now (ys.map (fun k => (k, v)))).cache
      = ys.map (fun k => (k, (⟨v, now⟩ : CacheEntry α))) := by
    have := setAll_below_capacity now (ys.map (fun k => (k, v))) (⟨[]⟩ : AgentCache κ α)
      (by simpa [Function.comp_def] using hndys) (by simp) (by simp [hysl])
    simpa [Function.comp_def] using this
  have hsplit : ((⟨[]⟩ : AgentCache κ α).setAll now ((ys ++ [z]).map (fun k => (k, v))))
      = (((⟨[]⟩ : AgentCache κ α).setAll now (ys.map (fun k => (k, v)))).set now z v) := by
    simp [AgentCache.setAll, List.foldl_append]
  rw [hsplit]
  rcases ys with _ | ⟨y₀, ytail⟩
  · simp [cacheMaxSize] at hysl
  have hfull : cacheMaxSize ≤ (((⟨[]⟩ : AgentCache κ α).setAll now
      ((y₀ :: ytail).map (fun k => (k, v)))).cache).length := by
    rw [h1]; simp at hysl ⊢; omega
  have hy₀ : y₀ ∉ ytail := (List.nodup_cons.mp hndys).1
  have hcache : ((((⟨[]⟩ : AgentCache κ α).setAll now
      ((y₀ :: ytail).map (fun k => (k, v)))).set now z v)).cache
      = ytail.map (fun k => (k, (⟨v, now⟩ : CacheEntry α))) ++ [(z, ⟨v, now⟩)] := by
    unfold AgentCache.set
    simp only [hfull, if_true]
    rw [h1]
    simp only [List.map_cons, List.head?_cons]
    have hd : mapDelete ((y₀, (⟨v, now⟩ : CacheEntry α)) ::
        ytail.map (fun k => (k, (⟨v, now⟩ : CacheEntry α)))) y₀
        = ytail.map (fun k => (k, (⟨v, now⟩ : CacheEntry α))) := by
      have := mapDelete_cons_head ((y₀, (⟨v, now⟩ : CacheEntry α)))
        (ytail.map (fun k => (k, (⟨v, now⟩ : CacheEntry α))))
        (by intro q hq
            simp only [List.mem_map] at hq
            obtain ⟨x, hx, rfl⟩ := hq
            simp only
            intro hcon
            exact hy₀ (hcon ▸ hx))
      simpa using this
    rw [hd]
    apply mapSet_append_of_fresh
    intro p hp
    simp only [List.mem_map] at hp
    obtain ⟨x, hx, rfl⟩ := hp
    simp only
    intro hcon
    exact hzys (hcon ▸ List.mem_cons_of_mem y₀ hx)
  rw [hcache]
  constructor
  · simp [Function.comp_def]
  · simp at hysl ⊢
    omega

/-- Under a stage function that throws a retryable error on every attempt,
the retry loop runs all three attempts on the recorded states, sleeps 2 s
then 4 s, and re-throws the error of the last attempt. -/
lemma retry_always_fails_trace (f : Nat → PipelineState → Except JsError PipelineState)
    (s : PipelineState)
    (h : ∀ n s', ∃ e, f n s' = .error e ∧ nonRetryable e = false) :
    ∃ e, f 3 { s with useAlternativePrompt := true } = .error e ∧
      executeWithRetry f s =
        ⟨.error e, [(1, s), (2, s), (3, { s with useAlternativePrompt := true })], [2000, 4000]⟩ := by
  obtain ⟨e₁, he₁, hn₁⟩ := h 1 s
  obtain ⟨e₂, he₂, hn₂⟩ := h 2 s
  obtain ⟨e₃, he₃, hn₃⟩ := h 3 { s with useAlternativePrompt := true }
  refine ⟨e₃, he₃, ?_⟩
  simp [executeWithRetry, maxRetries, retryGo, he₁, hn₁, he₂, hn₂, he₃, hn₃,
    backoffMultiplier]

/-- Every state the retry loop passes to the stage function carries the
errors of the loop's input state unchanged. -/
lemma retryGo_calls_errors (f : Nat → PipelineState → Except JsError PipelineState) :
    ∀ (fuel attempt : Nat) (s : PipelineState), ∀ p ∈ (retryGo f fuel attempt s).calls,
      p.2.errors = s.errors := by
  intro fuel
  induction fuel with
  | zero => intro attempt s p hp; simp [retryGo] at hp
  | succ n ih =>
    intro attempt s p hp
    rcases hf : f attempt s with e | r
    case ok =>
      simp [retryGo, hf] at hp
      rw [hp]
    case error =>
      by_cases hnr : nonRetryable e = true
      · simp [retryGo, hf, hnr] at hp
        rw [hp]
      · by_cases hn : n = 0
        · subst hn
          simp [retryGo, hf, hnr] at hp
          rw [hp]
        · simp [retryGo, hf, hnr, hn] at hp
          rcases hp with hp | hp
          · rw [hp]
          · have hs' : (if attempt = 2 then { s with useAlternativePrompt := true } else s).errors
                = s.errors := by
              split <;> rfl
            have hih := ih (attempt + 1)
              (if attempt = 2 then { s with useAlternativePrompt := true } else s) p hp
            rw [hih, hs']

/-- A quota-stop outcome of the sequential branch carries no metrics field. -/
lemma standard_early_metrics_none (env : StageOutcomes) (abstract : String)
    (r : WorkflowResult) (inv : List String)
    (h : executeStandardWorkflow env abstract = .early r inv) : r.metrics = none := by
  unfold executeStandardWorkflow at h
  dsimp only at h
  split_ifs at h
  all_goals injection h with hr hinv
  all_goals subst hr
  all_goals rfl

/-! ## Claim theorems -/

/-- C1 (amended): under the sequential (default) policy, the run stops
immediately after a stage exactly when the recorded errors carry a
quota/429/"exceeded" marker: when the search stage's state trips
`hasQuotaError`, no downstream stage function is invoked and the run returns
the partial search state as a direct failure result. (A `search_failed`
`currentStep` without such a marker does **not** stop the run — see the
counterexample.) -/
theorem C1_sequential_quota_stop (env : StageOutcomes) (abstract : String)
    (h : hasQuotaError (searchGenerationAgent env.search (initialState abstract)) = true) :
    executeStandardWorkflow env abstract =
      .early (quotaStopResult (searchGenerationAgent env.search (initialState abstract)))
        ["search"] := by
  unfold executeStandardWorkflow
  simp [h]

/-- C1 counterexample: a search failure with an HTTP-401 message sets
`currentStep = "search_failed"` with no quota marker, yet the sequential run
invokes all four downstream stage functions and completes (it does not return
a failure result). -/
theorem C1_counterexample :
    (searchGenerationAgent env401.search (initialState "A")).currentStep = "search_failed" ∧
    hasQuotaError (searchGenerationAgent env401.search (initialState "A")) = false ∧
    (executeStandardWorkflow env401 "A").invoked =
      ["search", "research", "claims", "document", "diagram"] ∧
    (executeStandardWorkflow env401 "A").isEarly = false := by
  refine ⟨rfl, by decide, ?_, ?_⟩ <;> decide

/-- C1 witness: a 429 search failure carries the quota marker, so the run
stops after search with the partial state. -/
theorem C1_witness :
    executeStandardWorkflow envQuota "A" =
      .early (quotaStopResult (searchGenerationAgent envQuota.search (initialState "A")))
        ["search"] :=
  C1_sequential_quota_stop envQuota "A" (by decide)

/-- C2 (amended): `errors` is extended, never shortened, by every stage
function; the retry executor passes states whose `errors` equal its input's
to every attempt; but the parallel policy's merge takes `errors` from the
**initial** state, so errors appended by the concurrent search and research
stages are **absent** from the merged state on which claims runs. -/
theorem C2_errors_append_only :
    (∀ (o : StageOutcome (List String)) (s : PipelineState),
        ∃ t, (searchGenerationAgent o s).errors = s.errors ++ t) ∧
    (∀ (o : StageOutcome String) (s : PipelineState),
        ∃ t, (researchGenerationAgent o s).errors = s.errors ++ t) ∧
    (∀ (o : StageOutcome (List String)) (s : PipelineState),
        ∃ t, (claimsGenerationAgent o s).errors = s.errors ++ t) ∧
    (∀ (o : StageOutcome String) (s : PipelineState),
        ∃ t, (documentGenerationAgent o s).errors = s.errors ++ t) ∧
    (∀ (o : StageOutcome (List String)) (s : PipelineState),
        ∃ t, (diagramGenerationAgent o s).errors = s.errors ++ t) ∧
    (∀ (f : Nat → PipelineState → Except JsError PipelineState) (s : PipelineState),
        ∀ p ∈ (executeWithRetry f s).calls, p.2.errors = s.errors) ∧
    (∀ (env : StageOutcomes) (abstract : String),
        (parallelMergedState env abstract).errors = []) := by
  refine ⟨?_, ?_, ?_, ?_, ?_, ?_, ?_⟩
  · intro o s
    cases o with
    | ok v => exact ⟨[], by simp [searchGenerationAgent]⟩
    | fail e => exact ⟨[formatErrorMessage e "Search Agent"], rfl⟩
  · intro o s
    cases o with
    | ok v => exact ⟨[], by simp [researchGenerationAgent]⟩
    | fail e => exact ⟨[formatErrorMessage e "Research Agent"], rfl⟩
  · intro o s
    cases o with
    | ok v => exact ⟨[], by simp [claimsGenerationAgent]⟩
    | fail e => exact ⟨[formatErrorMessage e "Claims Agent"], rfl⟩
  · intro o s
    cases o with
    | ok v => exact ⟨[], by simp [documentGenerationAgent]⟩
    | fail e => exact ⟨[formatErrorMessage e "Document Agent"], rfl⟩
  · intro o s
    cases o with
    | ok v => exact ⟨[], by simp [diagramGenerationAgent]⟩
    | fail e => exact ⟨[formatErrorMessage e "Diagram Agent"], rfl⟩
  · intro f s p hp
    exact retryGo_calls_errors f maxRetries 1 s p hp
  · intro env abstract
    rfl

/-- C2 counterexample: in the parallel policy, a search failure appends its
formatted error, but the merged state — the state on which the claims stage
runs — has an empty `errors` list: the appended error has been dropped. -/
theorem C2_counterexample :
    (searchGenerationAgent envBoomSearch.search (initialState "A")).errors =
      ["Search Agent Error: boom"] ∧
    (parallelMergedState envBoomSearch "A").errors = [] := by
  exact ⟨by decide, rfl⟩

/-- C3 (amended): `executeWithRetry` treats an error as non-retryable exactly
when its status is 429 or 401 or its message contains "quota"; such an error
is re-raised at once with the stage function invoked exactly once and no
backoff sleep. An HTTP-403 status is **not** in this class — see the
counterexample. -/
theorem C3_nonretryable_short_circuit
    (f : Nat → PipelineState → Except JsError PipelineState) (s : PipelineState) (e : JsError)
    (h1 : f 1 s = .error e) (h2 : nonRetryable e = true) :
    executeWithRetry f s = ⟨.error e, [(1, s)], []⟩ := by
  simp [executeWithRetry, maxRetries, retryGo, h1, h2]

/-- C3 counterexample: a stage function that always throws a 403-status error
is invoked all three times with two backoff sleeps — not re-raised
immediately after one invocation as the claim states. -/
theorem C3_counterexample :
    (executeWithRetry fail403 (initialState "A")).calls.length = 3 ∧
    (executeWithRetry fail403 (initialState "A")).delays = [2000, 4000] := by
  refine ⟨?_, ?_⟩ <;> decide

/-- C3 witness: a 429 quota error short-circuits after exactly one
invocation. -/
theorem C3_witness :
    executeWithRetry failQuota (initialState "A") =
      ⟨.error ⟨"insufficient quota", some 429⟩, [(1, initialState "A")], []⟩ :=
  C3_nonretryable_short_circuit failQuota (initialState "A")
    ⟨"insufficient quota", some 429⟩ rfl (by decide)

/-- C4 (amended): the `useAlternativePrompt = true` hint is injected after
the **second** attempt fails, so it is the **third** invocation of the stage
function that receives it; the first and second invocations receive the
unmodified input state, and the injection changes no field other than
`useAlternativePrompt`. -/
theorem C4_alternative_prompt_third_attempt
    (f : Nat → PipelineState → Except JsError PipelineState) (s : PipelineState)
    (h : ∀ n s', ∃ e, f n s' = .error e ∧ nonRetryable e = false) :
    (executeWithRetry f s).calls =
      [(1, s), (2, s), (3, { s with useAlternativePrompt := true })] := by
  obtain ⟨e, _, htrace⟩ := retry_always_fails_trace f s h
  rw [htrace]

/-- C4 counterexample: under an always-failing retryable stage function, the
second invocation receives `useAlternativePrompt = false` (the hint arrives
only on the third). -/
theorem C4_counterexample :
    (executeWithRetry failBoom (initialState "A")).calls.map
      (fun p => (p.1, p.2.useAlternativePrompt)) = [(1, false), (2, false), (3, true)] := by
  decide

/-- C4 witness: the amended attempt/state schedule at a concrete
always-failing stage function. -/
theorem C4_witness :
    (executeWithRetry failBoom (initialState "A")).calls =
      [(1, initialState "A"), (2, initialState "A"),
       (3, { initialState "A" with useAlternativePrompt := true })] :=
  C4_alternative_prompt_third_attempt failBoom (initialState "A")
    (fun _ _ => ⟨⟨"boom", none⟩, rfl, by decide⟩)

/-- C5 (amended): the metrics field of `executePatentWorkflow`'s result is
exactly characterized: it is absent (`none`) for a whole-pipeline cache hit
in `cached` mode and for the sequential quota-stop early returns, and it is
the end-of-run `monitor.getMetrics()` snapshot in every other case (parallel
and robust results, and the completed sequential result). -/
theorem C5_metrics_characterization (env : StageOutcomes) (abstract mode : String)
    (wfCache : AgentCache String PipelineState) (now : Nat) (m : AggregateMetrics) :
    (executePatentWorkflow env abstract mode wfCache now m).1.metrics =
      (if mode = "parallel" ∨ mode = "robust" then some m
       else if mode = "cached" ∧ ((wfCache.get now (generateKey "workflow" abstract)).1).isSome
         then none
       else if (executeStandardWorkflow env abstract).isEarly then none
       else some m) := by
  by_cases h₁ : mode = "parallel"
  · subst h₁; simp [executePatentWorkflow]
  by_cases h₂ : mode = "robust"
  · subst h₂; simp [executePatentWorkflow]
  rcases hst : executeStandardWorkflow env abstract with ⟨r, inv⟩ | ⟨fs, inv⟩
  all_goals by_cases h₃ : mode = "cached"
  · subst h₃
    unfold executePatentWorkflow
    rcases hget : wfCache.get now (generateKey "workflow" abstract) with ⟨_ | cw, c2⟩
    · simp [hget, hst, StandardOutcome.isEarly,
        standard_early_metrics_none env abstract r inv hst]
    · simp [hget]
  · unfold executePatentWorkflow
    simp [h₁, h₂, h₃, hst, StandardOutcome.isEarly,
      standard_early_metrics_none env abstract r inv hst]
  · subst h₃
    unfold executePatentWorkflow
    rcases hget : wfCache.get now (generateKey "workflow" abstract) with ⟨_ | cw, c2⟩
    · simp [hget, hst, StandardOutcome.isEarly]
    · simp [hget]
  · unfold executePatentWorkflow
    simp [h₁, h₂, h₃, hst, StandardOutcome.isEarly]

/-- C5 counterexample: a whole-pipeline cache hit in `cached` mode returns a
result whose metrics field is absent, contradicting "metrics are returned
alongside every result". -/
theorem C5_counterexample :
    (executePatentWorkflow envOK "A" "cached" hitCache 0 metrics0).1.metrics = none := by
  decide

/-- C6 (amended): an unknown mode string is not an error at all: the `switch`
falls through to the default branch, so `executePatentWorkflow` behaves
exactly as it does for `standard` — stage functions run and a result is
returned; nothing is raised. -/
theorem C6_unknown_mode_standard (env : StageOutcomes) (abstract mode : String)
    (wfCache : AgentCache String PipelineState) (now : Nat) (m : AggregateMetrics)
    (h₁ : mode ≠ "parallel") (h₂ : mode ≠ "robust") (h₃ : mode ≠ "cached") :
    executePatentWorkflow env abstract mode wfCache now m =
      executePatentWorkflow env abstract "standard" wfCache now m := by
  unfold executePatentWorkflow
  simp [h₁, h₂, h₃]

/-- C6 counterexample: the unknown mode `"bogus"` executes all five stage
functions and returns a success result rather than raising. -/
theorem C6_counterexample :
    (executePatentWorkflow envOK "A" "bogus" ⟨[]⟩ 0 metrics0).2.1 =
      ["search", "research", "claims", "document", "diagram"] ∧
    (executePatentWorkflow envOK "A" "bogus" ⟨[]⟩ 0 metrics0).1.success = true := by
  refine ⟨?_, ?_⟩ <;> decide

/-- C6 witness: the unknown mode `"bogus"` coincides with `standard` at a
concrete run. -/
theorem C6_witness :
    executePatentWorkflow envOK "A" "bogus" ⟨[]⟩ 0 metrics0 =
      executePatentWorkflow envOK "A" "standard" ⟨[]⟩ 0 metrics0 :=
  C6_unknown_mode_standard envOK "A" "bogus" ⟨[]⟩ 0 metrics0
    (by decide) (by decide) (by decide)

/-- C7: a stage function raising a retryable error on every attempt is
invoked exactly `maxRetries = 3` times; the backoff delays are
`backoffMultiplier ^ attempt * 1000` ms (2000 ms after attempt 1, 4000 ms
after attempt 2), strictly increasing; and the error of the last attempt is
what propagates. -/
theorem C7_retry_termination
    (f : Nat → PipelineState → Except JsError PipelineState) (s : PipelineState)
    (h : ∀ n s', ∃ e, f n s' = .error e ∧ nonRetryable e = false) :
    (executeWithRetry f s).calls.length = maxRetries ∧
    (executeWithRetry f s).delays =
      [backoffMultiplier ^ 1 * 1000, backoffMultiplier ^ 2 * 1000] ∧
    (executeWithRetry f s).delays = [2000, 4000] ∧
    List.Pairwise (fun a b => a < b) (executeWithRetry f s).delays ∧
    (∃ e, f 3 { s with useAlternativePrompt := true } = .error e ∧
      (executeWithRetry f s).result = .error e) := by
  obtain ⟨e, hf, htrace⟩ := retry_always_fails_trace f s h
  rw [htrace]
  exact ⟨rfl, by norm_num [backoffMultiplier], rfl, by simp, ⟨e, hf, rfl⟩⟩

/-- C7 witness: the retry schedule at a concrete always-failing stage
function. -/
theorem C7_witness :
    (executeWithRetry failBoom (initialState "A")).calls.length = maxRetries ∧
    (executeWithRetry failBoom (initialState "A")).delays =
      [backoffMultiplier ^ 1 * 1000, backoffMultiplier ^ 2 * 1000] ∧
    (executeWithRetry failBoom (initialState "A")).delays = [2000, 4000] ∧
    List.Pairwise (fun a b => a < b) (executeWithRetry failBoom (initialState "A")).delays ∧
    (∃ e, failBoom 3 { initialState "A" with useAlternativePrompt := true } = .error e ∧
      (executeWithRetry failBoom (initialState "A")).result = .error e) :=
  C7_retry_termination failBoom (initialState "A")
    (fun _ _ => ⟨⟨"boom", none⟩, rfl, by decide⟩)

/-- C8: cache round trip and expiry: a `set` followed by a `get` at the same
instant returns the stored value; once more than the 24-hour TTL has passed,
`get` returns absent and lazily evicts the expired entry from the store. -/
theorem C8_cache_roundtrip_expiry {κ α : Type} [DecidableEq κ] (c : AgentCache κ α)
    (now₀ now₁ : Nat) (k : κ) (v : α) (h : cacheTTL < now₁ - now₀) :
    ((c.set now₀ k v).get now₀ k).1 = some v ∧
    ((c.set now₀ k v).get now₁ k).1 = none ∧
    mapGet ((c.set now₀ k v).get now₁ k).2.cache k = none := by
  have hg := cache_set_cache c now₀ k v
  refine ⟨?_, ?_, ?_⟩
  · simp [AgentCache.get, hg]
  · simp [AgentCache.get, hg, h]
  · simp [AgentCache.get, hg, h, mapGet_mapDelete_self]

/-- C8 witness: the round trip and expiry at a concrete key and time. -/
theorem C8_witness :
    (((⟨[]⟩ : AgentCache Nat Nat).set 0 0 7).get 0 0).1 = some 7 ∧
    (((⟨[]⟩ : AgentCache Nat Nat).set 0 0 7).get (cacheTTL + 1) 0).1 = none ∧
    mapGet ((((⟨[]⟩ : AgentCache Nat Nat).set 0 0 7).get (cacheTTL + 1) 0)).2.cache 0 = none :=
  C8_cache_roundtrip_expiry ⟨[]⟩ 0 (cacheTTL + 1) 0 7 (by decide)

/-- C9: inserting `cacheMaxSize + 1 = 1001` distinct keys into an empty cache
leaves exactly `cacheMaxSize = 1000` entries, the evicted entry being
precisely the first-inserted key (the survivors are the insertion-order
tail); and reads never reorder the store — a successful `get` leaves the
cache unchanged, so no LRU-on-read behavior can affect which entry is
evicted. -/
theorem C9_eviction_bound {κ α : Type} [DecidableEq κ] (keys : List κ) (v : α) (now : Nat)
    (hnd : keys.Nodup) (hlen : keys.length = cacheMaxSize + 1) :
    (((⟨[]⟩ : AgentCache κ α).setAll now (keys.map (fun k => (k, v)))).cache.map Prod.fst
        = keys.tail) ∧
    ((⟨[]⟩ : AgentCache κ α).setAll now (keys.map (fun k => (k, v)))).cache.length
        = cacheMaxSize ∧
    (∀ (c : AgentCache κ α) (t : Nat) (k : κ),
        ((c.get t k).1).isSome = true → (c.get t k).2 = c) :=
  ⟨(setAll_evicts_first keys v now hnd hlen).1,
   (setAll_evicts_first keys v now hnd hlen).2,
   fun c t k h => get_some_frame c t k h⟩

/-- C9 witness: the eviction bound at the concrete key list `0, …, 1000`. -/
theorem C9_witness :
    (((⟨[]⟩ : AgentCache Nat Nat).setAll 0
        ((List.range (cacheMaxSize + 1)).map (fun k => (k, 7)))).cache.map Prod.fst
        = (List.range (cacheMaxSize + 1)).tail) ∧
    ((⟨[]⟩ : AgentCache Nat Nat).setAll 0
        ((List.range (cacheMaxSize + 1)).map (fun k => (k, 7)))).cache.length
        = cacheMaxSize ∧
    (∀ (c : AgentCache Nat Nat) (t : Nat) (k : Nat),
        ((c.get t k).1).isSome = true → (c.get t k).2 = c) :=
  C9_eviction_bound (List.range (cacheMaxSize + 1)) 7 0 (List.nodup_range _) (by simp)

/-- C10: the five stage functions are total: whatever the external
chat-completion outcome — including a thrown error — each returns normally;
on failure the returned state is the input state unchanged except that the
formatted error message is appended to `errors` and `currentStep` becomes
`<name>_failed`. Consequently, wrapping any of them in `executeWithRetry`
invokes it exactly once with no backoff: retries fire only on raised
errors. -/
theorem C10_stages_never_raise :
    (∀ (e : JsError) (s : PipelineState),
        searchGenerationAgent (.fail e) s =
          { s with errors := s.errors ++ [formatErrorMessage e "Search Agent"],
                   currentStep := "search_failed" }) ∧
    (∀ (e : JsError) (s : PipelineState),
        researchGenerationAgent (.fail e) s =
          { s with errors := s.errors ++ [formatErrorMessage e "Research Agent"],
                   currentStep := "research_failed" }) ∧
    (∀ (e : JsError) (s : PipelineState),
        claimsGenerationAgent (.fail e) s =
          { s with errors := s.errors ++ [formatErrorMessage e "Claims Agent"],
                   currentStep := "claims_failed" }) ∧
    (∀ (e : JsError) (s : PipelineState),
        documentGenerationAgent (.fail e) s =
          { s with errors := s.errors ++ [formatErrorMessage e "Document Agent"],
                   currentStep := "document_failed" }) ∧
    (∀ (e : JsError) (s : PipelineState),
        diagramGenerationAgent (.fail e) s =
          { s with errors := s.errors ++ [formatErrorMessage e "Diagram Agent"],
                   currentStep := "diagram_failed" }) ∧
    (∀ (o : StageOutcome (List String)) (s : PipelineState),
        executeWithRetry (liftStage searchGenerationAgent o) s =
          ⟨.ok (searchGenerationAgent o s), [(1, s)], []⟩) ∧
    (∀ (o : StageOutcome String) (s : PipelineState),
        executeWithRetry (liftStage researchGenerationAgent o) s =
          ⟨.ok (researchGenerationAgent o s), [(1, s)], []⟩) ∧
    (∀ (o : StageOutcome (List String)) (s : PipelineState),
        executeWithRetry (liftStage claimsGenerationAgent o) s =
          ⟨.ok (claimsGenerationAgent o s), [(1, s)], []⟩) ∧
    (∀ (o : StageOutcome String) (s : PipelineState),
        executeWithRetry (liftStage documentGenerationAgent o) s =
          ⟨.ok (documentGenerationAgent o s), [(1, s)], []⟩) ∧
    (∀ (o : StageOutcome (List String)) (s : PipelineState),
        executeWithRetry (liftStage diagramGenerationAgent o) s =
          ⟨.ok (diagramGenerationAgent o s), [(1, s)], []⟩) :=
  ⟨fun _ _ => rfl, fun _ _ => rfl, fun _ _ => rfl, fun _ _ => rfl, fun _ _ => rfl,
   fun _ _ => rfl, fun _ _ => rfl, fun _ _ => rfl, fun _ _ => rfl, fun _ _ => rfl⟩
